import Mathlib

/-!
Verification of the ballbot control application (`bbot_app.py`): a shallow
embedding of its soft real-time loop (`LoopKiller`, `SoftRealtimeLoop`) and of
the balance-control pipeline in the `__main__` block (kinematic transform,
PID torque selection with safety envelope, command mixing, shutdown command),
together with theorems settling the specification's claims about them.

Times and physical quantities are modelled as exact rationals (`ℚ`).  Python
expressions that raise (`ZeroDivisionError`, arithmetic on `None`) are
modelled with `Option`, returning `none` exactly where the Python code would
raise.  The irrational constants of the source (`cos α`, `sin α` with
α = 45°, `√3`, and `MAX_TILT = deg2rad(5) = π/36`) enter the embedding as
parameters, since they have no exact rational value; every theorem holds for
all parameter values satisfying the stated side conditions, and witnesses
instantiate them with rational approximations of the source's floats.
-/

namespace BBot

/-! ### Constants from the source (module level of `bbot_app.py`) -/

/-- `FREQ = 200` (Hz). -/
def FREQ : ℚ := 200

/-- `DT = 1/FREQ`. -/
def DT : ℚ := 1 / FREQ

/-- `RW = 0.0048` (wheel radius, m). -/
def RW : ℚ := 48 / 10000

/-- `RK = 0.1210` (ball radius, m). -/
def RK : ℚ := 1210 / 10000

/-- `MAX_BALL_VELOCITY = 0.5` (m/s). -/
def MAX_BALL_VELOCITY : ℚ := 1 / 2

/-- `MAX_DUTY = 0.8`. -/
def MAX_DUTY : ℚ := 8 / 10

/-- `MoController.MAX_TZ = 0.5` (Nm). -/
def MAX_TZ : ℚ := 1 / 2

/-- `THETA_KP = 11.0`. -/
def THETA_KP : ℚ := 11

/-- `THETA_KI = 0.0`. -/
def THETA_KI : ℚ := 0

/-- `THETA_KD = 0.1`. -/
def THETA_KD : ℚ := 1 / 10

/-! ### LoopKiller

State of the `LoopKiller` class: `_fade_time` (constructor argument),
`_kill_now`, `_kill_soon` (class attributes, initially `False`) and
`_soft_kill_time` (initially `None`).  `time.time()` values are passed in
explicitly as `now : ℚ`. -/

/-- The mutable state of a `LoopKiller` object. -/
structure LoopKiller where
  fade_time : ℚ
  kill_now : Bool
  kill_soon : Bool
  soft_kill_time : Option ℚ
  deriving DecidableEq, Repr

/-- `LoopKiller.__init__(fade_time)`: flags cleared, no soft-kill time. -/
def LoopKiller.init (fade : ℚ) : LoopKiller :=
  { fade_time := fade, kill_now := false, kill_soon := false,
    soft_kill_time := none }

/-- The `kill_now` setter with `val = True` (used by the signal handler, by a
double cancel, and by `SoftRealtimeLoop.stop`), executed at time `now`:
if `_kill_soon` is already set the kill becomes immediate; otherwise a
positive `_fade_time` starts a soft kill at `now`, and a zero (or negative)
`_fade_time` kills immediately. -/
def setKillTrue (s : LoopKiller) (now : ℚ) : LoopKiller :=
  if s.kill_soon then { s with kill_now := true }
  else if 0 < s.fade_time then
    { s with kill_soon := true, soft_kill_time := some now }
  else { s with kill_now := true }

/-- The `kill_now` setter with `val = False`: clears both flags and the
soft-kill time. -/
def setKillFalse (s : LoopKiller) : LoopKiller :=
  { s with kill_now := false, kill_soon := false, soft_kill_time := none }

/-- The side effect of the `kill_now` property getter at time `now`: when a
soft kill is pending and the fade has elapsed, `_kill_now` is latched.
Returns `none` where Python would raise (`None` arithmetic when
`_soft_kill_time` is unset while `_kill_soon` is set). -/
def killNowCheck (s : LoopKiller) (now : ℚ) : Option LoopKiller :=
  if s.kill_now then some s
  else if s.kill_soon then
    s.soft_kill_time.map fun t0 =>
      if s.fade_time < now - t0 then { s with kill_now := true } else s
  else some s

/-- `LoopKiller.get_fade` at time `now`: interpolates from 1 to 0 during the
fade window.  Returns `none` where Python would raise: `None` arithmetic when
`_soft_kill_time` is unset, or the division `t / _fade_time` with
`_fade_time = 0` (only reached when `t < _fade_time`). -/
def getFade (s : LoopKiller) (now : ℚ) : Option ℚ :=
  if s.kill_soon then
    s.soft_kill_time.bind fun t0 =>
      if s.fade_time ≤ now - t0 then some 0
      else if s.fade_time = 0 then none
      else some (1 - (now - t0) / s.fade_time)
  else some 1

/-- States of a `LoopKiller` reachable from construction through its
operations: the `kill_now` setter (with `True` from signal handler /
`stop()` / double cancel, with `False` from a reset) and the latched state
mutation performed inside the `kill_now` getter. -/
inductive Reachable : LoopKiller → Prop
  | init (fade : ℚ) : Reachable (LoopKiller.init fade)
  | setTrue {s : LoopKiller} (now : ℚ) : Reachable s → Reachable (setKillTrue s now)
  | setFalse {s : LoopKiller} : Reachable s → Reachable (setKillFalse s)
  | check {s s' : LoopKiller} (now : ℚ) :
      Reachable s → killNowCheck s now = some s' → Reachable s'

/-- The fade-state invariant: the soft-kill flag is set only with a strictly
positive fade time and a recorded soft-kill start time. -/
def FadeInv (s : LoopKiller) : Prop :=
  s.kill_soon = true → 0 < s.fade_time ∧ s.soft_kill_time.isSome

/-! ### SoftRealtimeLoop

The iterator protocol (`__iter__` / `__next__`) of `SoftRealtimeLoop`, which
is how the `__main__` block drives the control loop (`for t in
SoftRealtimeLoop(dt=DT, report=True)`).  The busy-wait / sleep phases only
consume wall-clock time; their effect on the recorded state is captured by
passing in the wake time (`time.time()` after the waits) of each tick. -/

/-- The timing/statistics state of a `SoftRealtimeLoop` object: `t0` (phase
reference), `t1` (next deadline), `ttarg` (jitter-statistics target time,
`None` until the first tick), the running sums `sum_err` / `sum_var`, the
aggregated sleep time, and the measured-tick count `n`. -/
structure LoopState where
  t0 : ℚ
  t1 : ℚ
  ttarg : Option ℚ
  sum_err : ℚ
  sum_var : ℚ
  sleep_t_agg : ℚ
  n : ℕ
  deriving DecidableEq, Repr

/-- `__init__` (statistics zeroed) followed by `__iter__`, which sets
`self.t0 = self.t1 = time.time() + self.dt` with `time.time() = start`. -/
def startLoop (start dt : ℚ) : LoopState :=
  { t0 := start + dt, t1 := start + dt, ttarg := none,
    sum_err := 0, sum_var := 0, sleep_t_agg := 0, n := 0 }

/-- One successful (non-cancelled) pass through `__next__`, waking at time
`wake`: the deadline is advanced by exactly `dt` (`self.t1 += self.dt`)
independent of `wake`; on the first call `ttarg` is initialised to
`wake + dt` and the tick is excluded from statistics, afterwards the timing
error `wake - ttarg` is accumulated into `sum_err` / `sum_var`, `n` is
incremented and `ttarg` advances by `dt`. -/
def nextTick (dt : ℚ) (s : LoopState) (wake : ℚ) : LoopState :=
  match s.ttarg with
  | none => { s with t1 := s.t1 + dt, ttarg := some (wake + dt) }
  | some tt =>
      { s with t1 := s.t1 + dt,
               sum_err := s.sum_err + (wake - tt),
               sum_var := s.sum_var + (wake - tt) ^ 2,
               n := s.n + 1,
               ttarg := some (tt + dt) }

/-- A whole run: the states visited by folding `__next__` over the list of
per-tick wake times (one entry per completed tick, arbitrary values: the
deadline bookkeeping must not depend on them). -/
def runLoop (dt start : ℚ) (wakes : List ℚ) : LoopState :=
  wakes.foldl (nextTick dt) (startLoop start dt)

/-- The end-of-run report of `__del__` (with `report=True`), evaluated at
time `now`: mean timing error `1e3 * sum_err / n`, the radicand
`(sum_var - sum_err² / n) / (n - 1)` of the standard-deviation formula (the
source takes `sqrt` of it, which does not affect definedness of the
divisions), and the sleep percentage `sleep_t_agg / (now - t0) * 100`.
Returns `none` exactly where Python raises `ZeroDivisionError`: `n = 0`,
`n = 1`, or zero elapsed time. -/
def report (s : LoopState) (now : ℚ) : Option (ℚ × ℚ × ℚ) :=
  if s.n = 0 then none
  else if s.n = 1 then none
  else if now - s.t0 = 0 then none
  else some (1000 * s.sum_err / (s.n : ℚ),
             (s.sum_var - s.sum_err ^ 2 / (s.n : ℚ)) / ((s.n : ℚ) - 1),
             s.sleep_t_agg / (now - s.t0) * 100)

/-! ### Kinematic transform

The fixed matrix `J` (source lines 217–227).  Its entries involve
`cos ALPHA`, `sin ALPHA` (with `ALPHA = deg2rad(45)`) and `√3`, which are
irrational; they enter as the parameters `cA`, `sA`, `s3`.  The source
structure is kept: `J13 = J12`, `J21 = 0`, `J23 = -1 * J22`,
`J32 = J33 = J31`. -/

/-- `J11 = -2 RW / (3 RK cos α)`. -/
def J11 (cA : ℚ) : ℚ := -2 * RW / (3 * RK * cA)

/-- `J12 = RW / (3 RK cos α)` (`J13 = J12`). -/
def J12 (cA : ℚ) : ℚ := RW / (3 * RK * cA)

/-- `J22 = -√3 RW / (3 RK cos α)` (`J23 = -J22`), with `s3` for `√3`. -/
def J22 (cA s3 : ℚ) : ℚ := -s3 * RW / (3 * RK * cA)

/-- `J31 = RW / (3 RK sin α)` (`J32 = J33 = J31`). -/
def J31 (sA : ℚ) : ℚ := RW / (3 * RK * sA)

/-- `dphi = np.matmul(J, dpsi)` (source line 427): the body-frame rate
vector (roll rate, pitch rate, yaw rate) from the wheel velocities. -/
def Japply (cA sA s3 : ℚ) (dpsi : ℚ × ℚ × ℚ) : ℚ × ℚ × ℚ :=
  ( J11 cA * dpsi.1 + J12 cA * dpsi.2.1 + J12 cA * dpsi.2.2,
    0 * dpsi.1 + J22 cA s3 * dpsi.2.1 + (-1 * J22 cA s3) * dpsi.2.2,
    J31 sA * dpsi.1 + J31 sA * dpsi.2.1 + J31 sA * dpsi.2.2 )

/-! ### Control pipeline of the `__main__` block -/

/-- One sample of topic 121 (`mo_states_dtype`): orientation angles and the
three wheel angular velocities, as read on source lines 423–425 and 430–431. -/
structure SensorState where
  theta_roll : ℚ
  theta_pitch : ℚ
  dpsi1 : ℚ
  dpsi2 : ℚ
  dpsi3 : ℚ
  deriving DecidableEq, Repr

/-- `np.max(np.abs(dphi))` for the 3-vector `dphi`. -/
def maxAbs3 (p : ℚ × ℚ × ℚ) : ℚ := max |p.1| (max |p.2.1| |p.2.2|)

/-- The pitch-torque selection of source lines 436–444, given the value
`pidTy` that `Ty` holds when the conditional is reached (the fresh PID
output assigned on line 431).  Translated branch by branch: the two
suppression branches are `pass` (they leave `Ty` bound to `pidTy`), and the
`else` branch is the self-assignment `Ty = Ty`. -/
def committedTy (maxTilt : ℚ) (st : SensorState) (dphi : ℚ × ℚ × ℚ)
    (pidTy : ℚ) : ℚ :=
  if maxTilt < |st.theta_roll| ∨ maxTilt < |st.theta_pitch| then
    pidTy
  else if MAX_BALL_VELOCITY < maxAbs3 dphi then
    pidTy
  else
    pidTy

/-- The command struct of topic 101 (`mo_cmds_dtype`): three motor duties
and the kill flag (a float, `0.0` or `1.0`, in the source). -/
structure Command where
  motor_1_duty : ℚ
  motor_2_duty : ℚ
  motor_3_duty : ℚ
  kill : ℚ
  deriving DecidableEq, Repr

/-- The command-mixing equations of source lines 448–450, mapping the torque
demands `(Tx, Ty, Tz)` to the three motor duties. -/
def motorDuties (Tx Ty Tz : ℚ) : ℚ × ℚ × ℚ :=
  ( (-3333 / 10000) * (Tz - (28284 / 10000) * Ty),
    (-3333 / 10000) * (Tz + (14142 / 10000) * (Ty + (17320 / 10000) * Tx)),
    (-3333 / 10000) * (Tz + (14142 / 10000) * (Ty - (17320 / 10000) * Tx)) )

/-- The tight uniform bound the mixing equations actually guarantee for the
duty magnitudes over the reachable torque inputs (`|Tx|, |Ty| ≤ MAX_DUTY`,
`|Tz| ≤ MAX_TZ`): `0.3333 · (MAX_TZ + 1.4142 · (1 + 1.7320) · MAX_DUTY)`
= 1.196838810816, which exceeds `MAX_DUTY = 0.8`. -/
def DUTY_BOUND : ℚ :=
  (3333 / 10000) * (MAX_TZ + (14142 / 10000) * (1 + 17320 / 10000) * MAX_DUTY)

/-- The hidden state of a `simple_pid.PID` object.

Modelled from the spec: the `simple_pid` library is not part of this
repository's source; the spec prescribes reimplementing it as "an explicit
state record `{integral, previous_error}` with a pure step function
`(state, measurement, setpoint) → (output, new_state)`". -/
structure PIDState where
  integral : ℚ
  prev_error : ℚ
  deriving DecidableEq, Repr

/-- Modelled from the spec: one step of the `simple_pid` PID controller
(library code not in `src/`) with gains `kp, ki, kd`, sample time `dt`,
setpoint `sp` and output limits `[lo, hi]`: proportional-integral-derivative
on the error, output clamped to the limits. -/
def pidStep (kp ki kd dt lo hi sp : ℚ) (s : PIDState) (meas : ℚ) :
    ℚ × PIDState :=
  let err := sp - meas
  let integ := s.integral + ki * err * dt
  let deriv := (err - s.prev_error) / dt
  let out := max lo (min hi (kp * err + integ + kd * deriv))
  (out, { integral := integ, prev_error := err })

/-- The control state owned by the `__main__` loop across ticks: the
previous body-rate vector `prev_dphi` and the hidden state of the two PID
objects. -/
structure ControlState where
  prev_dphi : ℚ × ℚ × ℚ
  rollPid : PIDState
  pitchPid : PIDState
  deriving DecidableEq, Repr

/-- One pass through the body of the `for t in SoftRealtimeLoop(...)` loop
(source lines 414–455), with the sensor read modelled as `Option SensorState`
(`none` is the `KeyError` of `get_cur_topic_data` during calibration) and
the gamepad yaw torque `Tz` read from the controller thread.  On `none` the
body executes `continue`: no state is mutated and no command is sent.
Otherwise: `dphi = J·dpsi`, fresh roll/pitch PID outputs, the safety-envelope
conditional, the mixing equations, the command send, and the `prev_dphi`
update. -/
def tick (cA sA s3 maxTilt : ℚ) (cs : ControlState)
    (sensor : Option SensorState) (Tz : ℚ) : ControlState × Option Command :=
  match sensor with
  | none => (cs, none)
  | some st =>
      let dphi := Japply cA sA s3 (st.dpsi1, st.dpsi2, st.dpsi3)
      let rollOut := pidStep THETA_KP THETA_KI THETA_KD DT (-MAX_DUTY)
        MAX_DUTY 0 cs.rollPid st.theta_roll
      let pitchOut := pidStep THETA_KP THETA_KI THETA_KD DT (-MAX_DUTY)
        MAX_DUTY 0 cs.pitchPid st.theta_pitch
      let Tx := rollOut.1
      let Ty := committedTy maxTilt st dphi pitchOut.1
      let d := motorDuties Tx Ty Tz
      ( { prev_dphi := dphi, rollPid := rollOut.2, pitchPid := pitchOut.2 },
        some { motor_1_duty := d.1, motor_2_duty := d.2.1,
               motor_3_duty := d.2.2, kill := 0 } )

/-! ### Command trace of a whole run (shutdown sequence) -/

/-- The initial command sent on source line 397: zero duties,
`commands['kill'] = 0.0`. -/
def initCommand : Command :=
  { motor_1_duty := 0, motor_2_duty := 0, motor_3_duty := 0, kill := 0 }

/-- The final command of source lines 474–479: `kill = 1.0` and all three
duties zero. -/
def killCommand : Command :=
  { motor_1_duty := 0, motor_2_duty := 0, motor_3_duty := 0, kill := 1 }

/-- What a single loop iteration contributes to the command trace: a skipped
tick (`KeyError` → `continue`, nothing sent), a command sent by
`send_topic_data`, or a fault — an exception escaping the loop body (e.g. a
command-write failure), which propagates out of the `for` statement. -/
inductive TickOutcome where
  | skip : TickOutcome
  | send : Command → TickOutcome
  | fault : TickOutcome
  deriving DecidableEq, Repr

/-- The commands issued from loop entry onwards, given the outcome of each
iteration.  When the iteration sequence is exhausted by cancellation
(`StopIteration` from `__next__`), control reaches lines 474–479 and the
kill command is sent; a fault aborts the `for` statement, so the post-loop
lines never execute and nothing further is sent. -/
def loopCommands : List TickOutcome → List Command
  | [] => [killCommand]
  | TickOutcome.skip :: rest => loopCommands rest
  | TickOutcome.send c :: rest => c :: loopCommands rest
  | TickOutcome.fault :: _ => []

/-- The full command trace of a program run: the line-397 initial command
followed by the loop's commands. -/
def programCommands (outs : List TickOutcome) : List Command :=
  initCommand :: loopCommands outs

/-- The last element of a command trace (the last `send_topic_data(101, ...)`
call observed by the motor controller). -/
def lastCmd : List Command → Option Command
  | [] => none
  | [c] => some c
  | _ :: c :: rest => lastCmd (c :: rest)

/-! ## Helper lemmas -/

theorem killNowCheck_preserves {s s' : LoopKiller} {now : ℚ}
    (h : killNowCheck s now = some s') :
    s'.kill_soon = s.kill_soon ∧ s'.fade_time = s.fade_time ∧
      s'.soft_kill_time = s.soft_kill_time := by
  unfold killNowCheck at h
  split_ifs at h
  · cases h; exact ⟨rfl, rfl, rfl⟩
  · cases hskt : s.soft_kill_time with
    | none => rw [hskt] at h; cases h
    | some t0 =>
      rw [hskt] at h
      simp only [Option.map_some', Option.some.injEq] at h
      subst h
      split_ifs <;> first
        | exact ⟨rfl, rfl, rfl⟩
        | exact ⟨rfl, rfl, hskt⟩
  · cases h; exact ⟨rfl, rfl, rfl⟩

theorem fadeInv_reachable {s : LoopKiller} (h : Reachable s) : FadeInv s := by
  induction h with
  | init fade => intro hks; cases hks
  | setTrue now _ ih =>
    intro hks
    unfold setKillTrue at hks ⊢
    split_ifs at hks ⊢ with hsoon hpos
    · obtain ⟨h1, h2⟩ := ih hsoon
      exact ⟨h1, h2⟩
    · exact ⟨hpos, rfl⟩
    · exact absurd hks hsoon
  | setFalse _ ih => intro hks; simp [setKillFalse] at hks
  | check now _ heq ih =>
    intro hks
    obtain ⟨h1, h2, h3⟩ := killNowCheck_preserves heq
    rw [h1] at hks
    obtain ⟨hp, hs⟩ := ih hks
    exact ⟨h2 ▸ hp, h3 ▸ hs⟩

theorem getFade_isSome_of_fadeInv {s : LoopKiller} (h : FadeInv s) (now : ℚ) :
    (getFade s now).isSome := by
  unfold getFade
  by_cases hsoon : s.kill_soon = true
  · obtain ⟨hpos, hskt⟩ := h hsoon
    obtain ⟨t0, hskt'⟩ := Option.isSome_iff_exists.mp hskt
    rw [if_pos hsoon, hskt', Option.some_bind]
    by_cases h1 : s.fade_time ≤ now - t0
    · rw [if_pos h1]; rfl
    · rw [if_neg h1, if_neg (ne_of_gt hpos)]; rfl
  · rw [if_neg hsoon]; rfl

theorem getFade_after_set (s : LoopKiller) (t0 now : ℚ)
    (hns : s.kill_soon = false) (hF : 0 < s.fade_time) :
    getFade (setKillTrue s t0) now =
      if s.fade_time ≤ now - t0 then some 0
      else some (1 - (now - t0) / s.fade_time) := by
  have hset : setKillTrue s t0 =
      { s with kill_soon := true, soft_kill_time := some t0 } := by
    unfold setKillTrue
    rw [if_neg (by simp [hns]), if_pos hF]
  rw [hset]
  unfold getFade
  dsimp only
  rw [if_pos rfl, Option.some_bind]
  split_ifs with h1 h2
  · rfl
  · exact absurd h2 (ne_of_gt hF)
  · rfl

/-! ## Claim theorems -/

/-- Claim C5: `get_fade` returns 1.0 whenever no soft-cancel is pending —
for every fade duration, including the program's default fade of 0; and
after a cancellation request at time `t0` on a killer with positive fade
duration `F` and no pending soft kill, it returns 1.0 at the moment of the
request, `1 - t / F` for elapsed time `t` inside the fade window, and 0.0 at
or after the window's end. -/
theorem c5_fade_shape (s : LoopKiller) (F t0 now : ℚ)
    (hns : s.kill_soon = false) :
    getFade s now = some 1 ∧
    (s.fade_time = F → 0 < F →
      getFade (setKillTrue s t0) t0 = some 1 ∧
      (t0 ≤ now → now < t0 + F →
        getFade (setKillTrue s t0) now = some (1 - (now - t0) / F)) ∧
      (t0 + F ≤ now → getFade (setKillTrue s t0) now = some 0)) := by
  constructor
  · unfold getFade
    rw [if_neg (by simp [hns])]
  · intro hFt hF
    subst hFt
    refine ⟨?_, ?_, ?_⟩
    · rw [getFade_after_set s t0 t0 hns hF]
      rw [if_neg (by simp only [sub_self]; exact not_le.mpr hF)]
      norm_num
    · intro h1 h2
      rw [getFade_after_set s t0 now hns hF]
      rw [if_neg (by linarith)]
    · intro h1
      rw [getFade_after_set s t0 now hns hF]
      rw [if_pos (by linarith)]

theorem c5_fade_shape_witness :
    getFade (LoopKiller.init 0) 11 = some 1 ∧
    getFade (setKillTrue (LoopKiller.mk 2 false false none) 10) 11 =
      some (1 / 2) ∧
    getFade (setKillTrue (LoopKiller.mk 2 false false none) 10) 13 =
      some 0 := by
  have h0 := c5_fade_shape (LoopKiller.init 0) 0 10 11 rfl
  have h := c5_fade_shape (LoopKiller.mk 2 false false none) 2 10 11 rfl
  have h' := c5_fade_shape (LoopKiller.mk 2 false false none) 2 10 13 rfl
  refine ⟨h0.1, ?_, (h'.2 rfl (by norm_num)).2.2 (by norm_num)⟩
  have h3 := (h.2 rfl (by norm_num)).2.1 (by norm_num) (by norm_num)
  rw [h3]
  norm_num

/-- Claim C6: with fade duration 0, requesting cancellation twice produces
exactly the same killer state as requesting it once; with a positive fade
duration, a second request after a first one sets the immediate-kill flag. -/
theorem c6_cancel_idempotent (s : LoopKiller) (n1 n2 : ℚ)
    (hns : s.kill_soon = false) :
    (s.fade_time = 0 →
      setKillTrue (setKillTrue s n1) n2 = setKillTrue s n1) ∧
    (0 < s.fade_time →
      (setKillTrue (setKillTrue s n1) n2).kill_now = true) := by
  constructor
  · intro h0
    have h1 : setKillTrue s n1 = { s with kill_now := true } := by
      unfold setKillTrue
      rw [if_neg (by simp [hns]), if_neg (by simp [h0])]
    rw [h1]
    unfold setKillTrue
    rw [if_neg (by simp [hns]), if_neg (by simp [h0])]
  · intro hF
    have h1 : setKillTrue s n1 =
        { s with kill_soon := true, soft_kill_time := some n1 } := by
      unfold setKillTrue
      rw [if_neg (by simp [hns]), if_pos hF]
    rw [h1]
    unfold setKillTrue
    rw [if_pos rfl]

theorem c6_cancel_idempotent_witness :
    setKillTrue (setKillTrue (LoopKiller.init 0) 5) 7 =
      setKillTrue (LoopKiller.init 0) 5 ∧
    (setKillTrue (setKillTrue (LoopKiller.init 2) 5) 7).kill_now = true :=
  ⟨(c6_cancel_idempotent (LoopKiller.init 0) 5 7 rfl).1 rfl,
   (c6_cancel_idempotent (LoopKiller.init 2) 5 7 rfl).2 (by decide)⟩

/-- Claim C10: every state of `LoopKiller` reachable through its operations
satisfies the implicit fade-state invariant — `_kill_soon` is set only with
a strictly positive `_fade_time` and a recorded `_soft_kill_time` — and
consequently `get_fade` never divides by zero: it is defined (returns a
value rather than raising) in every reachable state, at every time. -/
theorem c10_fade_state_invariant (s : LoopKiller) (h : Reachable s) :
    (s.kill_soon = true → 0 < s.fade_time ∧ s.soft_kill_time.isSome) ∧
    ∀ now : ℚ, (getFade s now).isSome := by
  have hinv := fadeInv_reachable h
  exact ⟨hinv, fun now => getFade_isSome_of_fadeInv hinv now⟩

theorem c10_fade_state_invariant_witness :
    (getFade (setKillTrue (LoopKiller.init 2) 5) 6).isSome :=
  (c10_fade_state_invariant _ (Reachable.setTrue 5 (Reachable.init 2))).2 6

/-! ## Deadline grid and jitter report (C3, C9) -/

theorem nextTick_t1 (dt : ℚ) (s : LoopState) (wake : ℚ) :
    (nextTick dt s wake).t1 = s.t1 + dt := by
  unfold nextTick
  cases hts : s.ttarg <;> rfl

theorem foldl_nextTick_t1 (dt : ℚ) (wakes : List ℚ) (s : LoopState) :
    (wakes.foldl (nextTick dt) s).t1 = s.t1 + (wakes.length : ℚ) * dt := by
  induction wakes generalizing s with
  | nil => simp
  | cons w ws ih =>
    rw [List.foldl_cons, ih, nextTick_t1, List.length_cons]
    push_cast
    ring

/-- Claim C3: the deadline grid is drift-free — after any number k of loop
passes, whatever the per-tick wake times (i.e. however long each tick body
took), the scheduler's next deadline `t1` equals the phase reference `t0`
plus exactly k times the period, and every single pass advances the deadline
by exactly `dt`, never re-basing it on the actual wake time. -/
theorem c3_deadline_grid (start dt : ℚ) (wakes : List ℚ) :
    (runLoop dt start wakes).t1 =
      (startLoop start dt).t0 + (wakes.length : ℚ) * dt ∧
    ∀ (s : LoopState) (w : ℚ), (nextTick dt s w).t1 = s.t1 + dt := by
  constructor
  · rw [runLoop, foldl_nextTick_t1]
    rfl
  · exact fun s w => nextTick_t1 dt s w

/-- Claim C9 counterexample: a run that terminates before any tick was
measured (`n = 0`, e.g. cancellation during the very first period) sends the
report of `__del__` into the division `sum_err / n` with `n = 0`, a
`ZeroDivisionError`: the report is not computed without error on this
termination path. -/
theorem c9_report_counterexample : report (runLoop DT 0 []) 1 = none := rfl

/-- Claim C9 amended: the divisions of the end-of-run report are
well-defined for every run with at least two measured ticks and nonzero
elapsed time (and only those: `n ∈ {0, 1}` or zero elapsed time raises
`ZeroDivisionError`); a run of k loop passes measures k − 1 ticks, the first
being excluded from the statistics. -/
theorem c9_report_defined (s : LoopState) (now : ℚ) (h2 : 2 ≤ s.n)
    (ht : now - s.t0 ≠ 0) :
    (report s now).isSome ∧
    ∀ (dt start : ℚ) (wakes : List ℚ),
      (runLoop dt start wakes).n = wakes.length - 1 := by
  constructor
  · unfold report
    rw [if_neg (by omega), if_neg (by omega), if_neg ht]
    rfl
  · intro dt start wakes
    have haux : ∀ (ws : List ℚ) (st : LoopState) (tt : ℚ),
        st.ttarg = some tt → (ws.foldl (nextTick dt) st).n = st.n + ws.length := by
      intro ws
      induction ws with
      | nil => intro st tt _; rfl
      | cons w ws' ih =>
        intro st tt htt
        rw [List.foldl_cons]
        have hstep : (nextTick dt st w).ttarg = some (tt + dt) := by
          unfold nextTick
          rw [htt]
        have hn : (nextTick dt st w).n = st.n + 1 := by
          unfold nextTick
          rw [htt]
        rw [ih (nextTick dt st w) (tt + dt) hstep, hn, ws'.length_cons]
        omega
    cases wakes with
    | nil => rfl
    | cons w ws =>
      rw [runLoop, List.foldl_cons]
      have hfirst : (nextTick dt (startLoop start dt) w).ttarg =
          some (w + dt) := rfl
      have hn0 : (nextTick dt (startLoop start dt) w).n = 0 := rfl
      rw [haux ws _ (w + dt) hfirst, hn0, List.length_cons]
      omega

theorem c9_report_defined_witness :
    (report (LoopState.mk 0 1 (some 1) 0 0 0 2) 1).isSome :=
  (c9_report_defined (LoopState.mk 0 1 (some 1) 0 0 0 2) 1 (by decide)
    (by norm_num)).1

/-! ## Safety envelope and command mixing (C1, C2) -/

/-- Claim C1 counterexample: two consecutive ticks.  Tick 1 is inside the
envelope and commits pitch torque 0.  Tick 2 has roll angle 0.0957 =
1.1 × maxTilt (envelope violated; maxTilt instantiated at the rational
0.087, standing for `deg2rad(5)` ≈ 0.0872665) and fresh pitch PID output 1;
it commits 1 — the fresh output — and not 0, the previous tick's committed
pitch torque: the suppression branch does not hold the previous value. -/
theorem c1_counterexample :
    committedTy (87 / 1000) (SensorState.mk 0 0 0 0 0) (0, 0, 0) 0 = 0 ∧
    (87 / 1000 : ℚ) < |(957 / 10000 : ℚ)| ∧
    committedTy (87 / 1000) (SensorState.mk (957 / 10000) 0 0 0 0)
      (0, 0, 0) 1 = 1 ∧
    (1 : ℚ) ≠ 0 := by
  refine ⟨by simp [committedTy], ?_, by simp [committedTy], by norm_num⟩
  rw [abs_of_pos (by norm_num)]
  norm_num

/-- Claim C1 amended: on every tick — in particular on every
envelope-violating tick — the pitch torque committed to the command mixer
equals the freshly computed PID output of the current tick.  The suppression
branches of the safety envelope are no-ops: `Ty` was already overwritten
with the fresh PID output before the conditional, and `pass` / `Ty = Ty`
leave it unchanged, so the previous tick's value is never retained. -/
theorem c1_envelope_commits_fresh (maxTilt : ℚ) (st : SensorState)
    (dphi : ℚ × ℚ × ℚ) (pidTy : ℚ)
    (_hviol : maxTilt < |st.theta_roll| ∨ maxTilt < |st.theta_pitch| ∨
      MAX_BALL_VELOCITY < maxAbs3 dphi) :
    committedTy maxTilt st dphi pidTy = pidTy := by
  simp [committedTy]

theorem c1_envelope_commits_fresh_witness :
    committedTy (87 / 1000) (SensorState.mk (957 / 10000) 0 0 0 0)
      (0, 0, 0) 5 = 5 :=
  c1_envelope_commits_fresh (87 / 1000) (SensorState.mk (957 / 10000) 0 0 0 0)
    (0, 0, 0) 5
    (Or.inl (by rw [abs_of_pos (by norm_num)]; norm_num))

/-- Claim C2 counterexample: at the reachable torque inputs Tx = 0,
Ty = −0.8, Tz = 0.5 (|Tx|, |Ty| within the PID output limits ±MAX_DUTY, |Tz|
within MAX_TZ), motor 1's duty is −0.920814576: its magnitude exceeds
MAX_DUTY = 0.8, so the mixing output is not bounded by MAX_DUTY (no clamp is
applied after mixing). -/
theorem c2_counterexample :
    |(0 : ℚ)| ≤ MAX_DUTY ∧ |(-8 / 10 : ℚ)| ≤ MAX_DUTY ∧
    |(1 / 2 : ℚ)| ≤ MAX_TZ ∧
    ¬ |(motorDuties 0 (-8 / 10) (1 / 2)).1| ≤ MAX_DUTY := by
  refine ⟨by simp [MAX_DUTY]; norm_num, ?_, ?_, ?_⟩
  · rw [abs_of_neg (by norm_num)]
    norm_num [MAX_DUTY]
  · rw [abs_of_pos (by norm_num)]
    norm_num [MAX_TZ]
  · rw [not_le, abs_of_neg (by norm_num [motorDuties])]
    norm_num [motorDuties, MAX_DUTY]

/-- Claim C2 amended: over the reachable torque inputs (roll and pitch PID
outputs limited to [−MAX_DUTY, MAX_DUTY], |Tz| ≤ MAX_TZ), each of the three
motor duties produced by the mixing equations is bounded in magnitude by
DUTY_BOUND = 0.3333·(MAX_TZ + 1.4142·(1 + 1.7320)·MAX_DUTY) ≈ 1.1968 — the
bound the matrix actually implies — but not by MAX_DUTY. -/
theorem c2_duty_bound (Tx Ty Tz : ℚ) (hx : |Tx| ≤ MAX_DUTY)
    (hy : |Ty| ≤ MAX_DUTY) (hz : |Tz| ≤ MAX_TZ) :
    |(motorDuties Tx Ty Tz).1| ≤ DUTY_BOUND ∧
    |(motorDuties Tx Ty Tz).2.1| ≤ DUTY_BOUND ∧
    |(motorDuties Tx Ty Tz).2.2| ≤ DUTY_BOUND := by
  rw [abs_le] at hx hy hz
  unfold MAX_DUTY at hx hy
  unfold MAX_TZ at hz
  obtain ⟨hx1, hx2⟩ := hx
  obtain ⟨hy1, hy2⟩ := hy
  obtain ⟨hz1, hz2⟩ := hz
  unfold motorDuties DUTY_BOUND MAX_DUTY MAX_TZ
  norm_num at hx1 hx2 hy1 hy2 hz1 hz2 ⊢
  refine ⟨abs_le.mpr ⟨by linarith, by linarith⟩,
          abs_le.mpr ⟨by linarith, by linarith⟩,
          abs_le.mpr ⟨by linarith, by linarith⟩⟩

theorem c2_duty_bound_witness :
    |(motorDuties 0 0 0).1| ≤ DUTY_BOUND ∧
    |(motorDuties 0 0 0).2.1| ≤ DUTY_BOUND ∧
    |(motorDuties 0 0 0).2.2| ≤ DUTY_BOUND :=
  c2_duty_bound 0 0 0 (by norm_num [MAX_DUTY])
    (by norm_num [MAX_DUTY]) (by norm_num [MAX_TZ])

/-! ## Skipped tick, kinematics, shutdown (C7, C8, C4) -/

/-- Claim C7: a tick whose sensor read signals the transient calibrating
condition (`KeyError`) is skipped atomically: the loop body `continue`s
before any computation, so no command is produced, no PID torque is
computed, and the whole control state — previous body-rate vector, both PID
integrator/previous-error records — is returned unchanged; the loop then
retries at the next period. -/
theorem c7_skip_atomic (cA sA s3 maxTilt Tz : ℚ) (cs : ControlState) :
    tick cA sA s3 maxTilt cs none Tz = (cs, none) := rfl

/-- Claim C8: applying the kinematic matrix J to the equal-velocity wheel
vector (v, v, v) yields body rates whose roll and pitch components are
exactly zero and whose yaw component is `RW / (RK sin α) · v` — a fixed
nonzero multiple of v (nonzero for v ≠ 0, proportional to v).  `cA`, `sA`,
`s3` stand for the source's irrational `cos ALPHA`, `sin ALPHA`, `√3`. -/
theorem c8_pure_spin (cA sA s3 v : ℚ) (hsA : sA ≠ 0) (hv : v ≠ 0) :
    (Japply cA sA s3 (v, v, v)).1 = 0 ∧
    (Japply cA sA s3 (v, v, v)).2.1 = 0 ∧
    (Japply cA sA s3 (v, v, v)).2.2 = RW / (RK * sA) * v ∧
    (Japply cA sA s3 (v, v, v)).2.2 ≠ 0 := by
  have hRK : RK ≠ 0 := by norm_num [RK]
  have hRW : RW ≠ 0 := by norm_num [RW]
  have h3 : (Japply cA sA s3 (v, v, v)).2.2 = RW / (RK * sA) * v := by
    show J31 sA * v + J31 sA * v + J31 sA * v = RW / (RK * sA) * v
    unfold J31
    field_simp
    ring
  refine ⟨?_, ?_, h3, ?_⟩
  · show J11 cA * v + J12 cA * v + J12 cA * v = 0
    unfold J11 J12
    ring
  · show 0 * v + J22 cA s3 * v + -1 * J22 cA s3 * v = 0
    ring
  · rw [h3]
    exact mul_ne_zero (div_ne_zero hRW (mul_ne_zero hRK hsA)) hv

theorem c8_pure_spin_witness :
    (Japply (7071 / 10000) (7071 / 10000) (17320 / 10000) (1, 1, 1)).2.2 ≠ 0 :=
  (c8_pure_spin (7071 / 10000) (7071 / 10000) (17320 / 10000) 1
    (by norm_num) one_ne_zero).2.2.2

theorem lastCmd_cons (c : Command) {l : List Command} (hl : l ≠ []) :
    lastCmd (c :: l) = lastCmd l := by
  cases l with
  | nil => exact absurd rfl hl
  | cons d rest => rfl

theorem loopCommands_no_fault {outs : List TickOutcome}
    (hnf : TickOutcome.fault ∉ outs) :
    loopCommands outs ≠ [] ∧ lastCmd (loopCommands outs) = some killCommand := by
  induction outs with
  | nil => exact ⟨by simp [loopCommands], rfl⟩
  | cons o rest ih =>
    have hrest : TickOutcome.fault ∉ rest := fun h =>
      hnf (List.mem_cons_of_mem _ h)
    cases o with
    | skip =>
      have heq : loopCommands (TickOutcome.skip :: rest) = loopCommands rest :=
        rfl
      rw [heq]
      exact ih hrest
    | send c =>
      obtain ⟨hne, hlast⟩ := ih hrest
      have heq : loopCommands (TickOutcome.send c :: rest) =
          c :: loopCommands rest := rfl
      rw [heq]
      exact ⟨by simp, by rw [lastCmd_cons c hne]; exact hlast⟩
    | fault => exact absurd (List.mem_cons_self _ _) hnf

/-- Claim C4 counterexample: when a fault (e.g. a command-write failure)
propagates out of a tick, the `for` statement aborts and the post-loop kill
command of lines 474–479 is never sent: in a run whose single iteration
faults, the last command ever passed to the write interface is the initial
command, whose kill flag is 0 and which is not the zero/kill command. -/
theorem c4_counterexample :
    lastCmd (programCommands [TickOutcome.fault]) = some initCommand ∧
    initCommand.kill = 0 ∧
    initCommand ≠ killCommand := by
  refine ⟨rfl, rfl, ?_⟩
  intro h
  have : (0 : ℚ) = 1 := congrArg Command.kill h
  norm_num at this

/-- Claim C4 amended: on every run whose loop terminates normally — by
cancellation or tick-function stop, i.e. without a fault escaping a tick
body — the very last command passed to the command-write interface is the
kill command: all three motor duties zero and the kill flag set, issued
before the scheduler run returns.  (When a fault escapes a tick, the
post-loop kill command is skipped — see the counterexample.) -/
theorem c4_last_command_kill (outs : List TickOutcome)
    (hnf : TickOutcome.fault ∉ outs) :
    lastCmd (programCommands outs) = some killCommand ∧
    killCommand.motor_1_duty = 0 ∧ killCommand.motor_2_duty = 0 ∧
    killCommand.motor_3_duty = 0 ∧ killCommand.kill = 1 := by
  obtain ⟨hne, hlast⟩ := loopCommands_no_fault hnf
  refine ⟨?_, rfl, rfl, rfl, rfl⟩
  rw [programCommands, lastCmd_cons initCommand hne]
  exact hlast

theorem c4_last_command_kill_witness :
    lastCmd (programCommands
      [TickOutcome.skip, TickOutcome.send initCommand]) = some killCommand :=
  (c4_last_command_kill [TickOutcome.skip, TickOutcome.send initCommand]
    (by decide)).1

end BBot
